import Mathlib

/-!
Verification development for the PostsScreen controller
(react-native-task-assessment).

The source is a single React component (`src/app/screens/PostsScreen.tsx`)
holding six state variables (`posts`, `filteredPosts`, `search`, `loading`,
`refreshing`, `error`), an async `fetchPosts` routine guarded by a
connectivity probe, a 300 ms trailing-edge debounce effect with dependencies
`[search, posts]` that persists the query and recomputes the filtered view,
an `onRefresh` pull handler, and a mount effect that seeds the query from
`AsyncStorage`.

The embedding below is shallow: React state is a record `ScreenState`;
an async routine becomes a pure function from the pre-state (plus the
environment's answers: connectivity, remote outcome) to the post-state and
the list of emitted toasts.  JavaScript closure capture is made explicit:
values a closure read at its creation are passed as `captured*` arguments,
distinct from the live state at completion time.  The debounce effect is a
small event machine over discrete time (milliseconds as `Nat`).
-/

namespace PostsScreen

/-- A record of the remote collection, `type Post` in the source. -/
structure Post where
  userId : Nat
  id : Nat
  title : String
  body : String
deriving DecidableEq

/-- Boolean test that `needle` is a prefix of `hay`, on lists of characters. -/
def listPrefixOk : List Char → List Char → Bool
  | [], _ => true
  | _ :: _, [] => false
  | a :: as, b :: bs => a == b && listPrefixOk as bs

/-- Boolean test that `needle` occurs contiguously inside `hay`; this is the
behaviour of JavaScript `String.prototype.includes` on the embedded strings. -/
def listContainsSub (needle : List Char) : List Char → Bool
  | [] => listPrefixOk needle []
  | b :: bs => listPrefixOk needle (b :: bs) || listContainsSub needle bs

/-- JavaScript `s.toLowerCase()`, character by character, on the embedded
character list of the string. -/
def lowerChars (s : String) : List Char :=
  s.toList.map Char.toLower

/-- The filter predicate of the source, applied to one post:
`post.title.toLowerCase().includes(search.toLowerCase())`. -/
def titleMatches (query : String) (p : Post) : Bool :=
  listContainsSub (lowerChars query) (lowerChars p.title)

/-- The search filter of the source (the inline
`posts.filter((post) => post.title.toLowerCase().includes(search.toLowerCase()))`,
called `SearchFilter` by the spec). -/
def filterPosts (collection : List Post) (query : String) : List Post :=
  collection.filter (titleMatches query)

/-- An empty needle is contained in every string (JS `s.includes("")`). -/
theorem listContainsSub_nil (l : List Char) : listContainsSub [] l = true := by
  cases l with
  | nil => rfl
  | cons b bs => simp [listContainsSub, listPrefixOk]

/-- The empty query matches every post. -/
theorem titleMatches_empty (p : Post) : titleMatches "" p = true := by
  simp [titleMatches, lowerChars, listContainsSub_nil]

/-- C1: for every collection `C` and query `Q`, `filterPosts C Q` is a
subsequence of `C` (same relative order, no reordering, no duplication), its
occurrence count of each post is that of `C` when the post's title contains
`Q` case-insensitively and `0` otherwise (so it holds exactly the matching
elements), and the empty query returns `C` itself. -/
theorem c1_filter_correct (C : List Post) (Q : String) (p : Post) :
    List.Sublist (filterPosts C Q) C ∧
    (filterPosts C Q).count p = (if titleMatches Q p then C.count p else 0) ∧
    filterPosts C "" = C := by
  refine ⟨List.filter_sublist C, ?_, ?_⟩
  · by_cases h : titleMatches Q p
    · simp [filterPosts, h, List.count_filter]
    · simp only [filterPosts, if_neg h]
      rw [List.count_eq_zero]
      intro hmem
      exact h (List.of_mem_filter hmem)
  · refine List.filter_eq_self.mpr ?_
    intro a _
    exact titleMatches_empty a

/-- The component state: the six `useState` variables of `PostsScreen`.
`error` is the string union type `"" | "offline" | "server" | "network"`. -/
structure ScreenState where
  posts : List Post
  filteredPosts : List Post
  search : String
  loading : Bool
  refreshing : Bool
  error : String
deriving DecidableEq

/-- The initial render state: `useState([]), useState([]), useState(""),
useState(true), useState(false), useState("")`. -/
def initialState : ScreenState :=
  { posts := [], filteredPosts := [], search := "", loading := true,
    refreshing := false, error := "" }

/-- A toast message as passed to `Toast.show`. -/
structure ToastMsg where
  toastType : String
  text1 : String
  text2 : String
deriving DecidableEq

/-- The toast shown on the offline branch. -/
def offlineToast : ToastMsg :=
  { toastType := "error", text1 := "No Internet", text2 := "You are offline." }

/-- The toast shown on a non-success HTTP status. -/
def serverToast (status : Nat) : ToastMsg :=
  { toastType := "error", text1 := "Server Error", text2 := "Status " ++ toString status }

/-- The toast shown when the request or the decode throws. -/
def networkToast : ToastMsg :=
  { toastType := "error", text1 := "Network Error", text2 := "Something went wrong." }

/-- Outcome of the remote call when it is attempted: `!response.ok` with the
status code, a thrown transport or decode failure, or decoded data. -/
inductive RemoteResult where
  | httpError (status : Nat)
  | networkError
  | success (data : List Post)
deriving DecidableEq

/-- Result of one run of `fetchPosts`: the post-state, the toasts emitted by
the run (in order), and whether the remote call was attempted at all. -/
structure FetchResult where
  state : ScreenState
  toasts : List ToastMsg
  remoteCalled : Bool
deriving DecidableEq

/-- The synchronous head of `fetchPosts`, before its first `await`:
`setError(""); if (!refreshing) setLoading(true);`.  The `refreshing` read
here is the value captured by the closure at its creation, passed in as
`capturedRefreshing` — not the live state. -/
def fetchStep1 (capturedRefreshing : Bool) (s : ScreenState) : ScreenState :=
  let s1 := { s with error := "" }
  if !capturedRefreshing then { s1 with loading := true } else s1

/-- The rest of `fetchPosts` after the connectivity probe answers, applied to
the state current at completion time.  `capturedSearch` is the `search` value
the closure captured at its creation — the success branch filters with it.
The offline branch runs before the `try`, so it sets the flags itself; the
three `try` branches reach the `finally` which runs `setLoading(false);
setRefreshing(false)`. -/
def fetchComplete (capturedSearch : String) (netConnected : Bool)
    (remote : RemoteResult) (s : ScreenState) : FetchResult :=
  if !netConnected then
    { state := { s with loading := false, refreshing := false, error := "offline" },
      toasts := [offlineToast],
      remoteCalled := false }
  else
    match remote with
    | .httpError status =>
        { state := { s with error := "server", loading := false, refreshing := false },
          toasts := [serverToast status],
          remoteCalled := true }
    | .networkError =>
        { state := { s with error := "network", loading := false, refreshing := false },
          toasts := [networkToast],
          remoteCalled := true }
    | .success data =>
        { state := { s with posts := data,
                            filteredPosts := filterPosts data capturedSearch,
                            error := "",
                            loading := false, refreshing := false },
          toasts := [],
          remoteCalled := true }

/-- One whole run of `fetchPosts` in which no other state change interleaves:
the synchronous head followed by the completion, with the closure-captured
`refreshing` and `search` made explicit. -/
def fetchPosts (capturedRefreshing : Bool) (capturedSearch : String)
    (netConnected : Bool) (remote : RemoteResult) (s : ScreenState) : FetchResult :=
  fetchComplete capturedSearch netConnected remote (fetchStep1 capturedRefreshing s)

/-- The state visible right after the synchronous part of
`onRefresh = () => { setRefreshing(true); await fetchPosts(); }` has run the
head of `fetchPosts`.  Both closures come from the same render, so the
`refreshing` value `fetchPosts` captured is the pre-pull value `s.refreshing`,
not the `true` just queued by `setRefreshing(true)`. -/
def onRefreshStep1 (s : ScreenState) : ScreenState :=
  fetchStep1 s.refreshing { s with refreshing := true }

/-- A whole `onRefresh` run with no interleaving: the pull handler's
`setRefreshing(true)` followed by the full `fetchPosts` run, whose captures
come from the render the pull happened in. -/
def onRefresh (netConnected : Bool) (remote : RemoteResult)
    (s : ScreenState) : FetchResult :=
  fetchComplete s.search netConnected remote (onRefreshStep1 s)

/-- C3: when the connectivity probe reports disconnected, `fetchPosts` does
not attempt the remote call, sets `error = "offline"` (the code's rendering
of `Failed(Offline)`), emits exactly the one offline toast, and leaves the
collection and the filtered view unchanged. -/
theorem c3_offline_short_circuit (cr : Bool) (cs : String) (r : RemoteResult)
    (s : ScreenState) :
    (fetchPosts cr cs false r s).remoteCalled = false ∧
    (fetchPosts cr cs false r s).state.error = "offline" ∧
    (fetchPosts cr cs false r s).toasts = [offlineToast] ∧
    (fetchPosts cr cs false r s).state.posts = s.posts ∧
    (fetchPosts cr cs false r s).state.filteredPosts = s.filteredPosts ∧
    (fetchPosts cr cs false r s).state.loading = false ∧
    (fetchPosts cr cs false r s).state.refreshing = false := by
  cases cr <;> simp [fetchPosts, fetchComplete, fetchStep1]

/-- C4: when the remote call answers with a non-success status `code`,
`fetchPosts` sets `error = "server"`, emits exactly one toast carrying the
status code, and mutates neither the collection nor the filtered view. -/
theorem c4_server_error_atomic (cr : Bool) (cs : String) (code : Nat)
    (s : ScreenState) :
    (fetchPosts cr cs true (.httpError code) s).state.error = "server" ∧
    (fetchPosts cr cs true (.httpError code) s).toasts = [serverToast code] ∧
    (fetchPosts cr cs true (.httpError code) s).state.posts = s.posts ∧
    (fetchPosts cr cs true (.httpError code) s).state.filteredPosts = s.filteredPosts ∧
    (fetchPosts cr cs true (.httpError code) s).remoteCalled = true ∧
    (fetchPosts cr cs true (.httpError code) s).state.loading = false ∧
    (fetchPosts cr cs true (.httpError code) s).state.refreshing = false := by
  cases cr <;> simp [fetchPosts, fetchComplete, fetchStep1]

/-- A concrete post used in counterexamples, after the spec's scenario. -/
def alphaPost : Post := { userId := 1, id := 1, title := "Alpha post", body := "a" }

/-- A second concrete post used in counterexamples. -/
def betaPost : Post := { userId := 1, id := 2, title := "Beta", body := "b" }

/-- C5 counterexample: a fetch whose closure captured the query `""` completes
while the live query is `"zzz"`.  The code filters the fresh data with the
captured query, so the resulting filtered view is `[alphaPost]`, not
`SearchFilter(collection, query-at-completion) = []`: the claim that the
recomputation uses the query current at completion time is false. -/
theorem c5_counterexample :
    ((fetchComplete "" true (.success [alphaPost])
        { initialState with search := "zzz" }).state.filteredPosts = [alphaPost]) ∧
    filterPosts
        ((fetchComplete "" true (.success [alphaPost])
          { initialState with search := "zzz" }).state.posts)
        ((fetchComplete "" true (.success [alphaPost])
          { initialState with search := "zzz" }).state.search) = [] := by
  constructor <;> decide

/-- C5 amended: on every successful completion the collection is replaced
wholesale by the decoded data, `error` is cleared and the loading flags drop
(the code's rendering of `Succeeded`), but the filtered view is recomputed
with the query the closure captured at its creation — the invocation-time
value — not the query current at completion time. -/
theorem c5_success_uses_captured_query (cs : String) (data : List Post)
    (s : ScreenState) :
    (fetchComplete cs true (.success data) s).state.posts = data ∧
    (fetchComplete cs true (.success data) s).state.filteredPosts
      = filterPosts data cs ∧
    (fetchComplete cs true (.success data) s).state.error = "" ∧
    (fetchComplete cs true (.success data) s).state.loading = false ∧
    (fetchComplete cs true (.success data) s).state.refreshing = false ∧
    (fetchComplete cs true (.success data) s).toasts = [] := by
  simp [fetchComplete]

/-- A settled state holding a fetched collection, with no load in progress:
the state a user pulls to refresh from. -/
def loadedState : ScreenState :=
  { posts := [alphaPost], filteredPosts := [alphaPost], search := "",
    loading := false, refreshing := false, error := "" }

/-- C6 counterexample: a pull-to-refresh (`UserPull`) issued while a
collection already exists.  The claim says step 1 must then leave `loading`
alone (status `RefreshingInBackground`); but `fetchPosts` tests the
closure-captured `refreshing`, which is still `false` when `onRefresh` calls
it, so the code sets `loading = true` (status `Loading`) even though
`posts` is nonempty. -/
theorem c6_counterexample :
    loadedState.posts ≠ [] ∧ (onRefreshStep1 loadedState).loading = true := by
  constructor <;> decide

/-- C6 amended: step 1 always clears the prior error, and it sets
`loading = true` exactly when the closure-captured `refreshing` flag is
`false` — it never consults whether a collection exists.  In particular a
pull-to-refresh from the normal `refreshing = false` state always sets
`loading = true` (status `Loading`), collection or no collection; the pull
itself only raises the `refreshing` flag. -/
theorem c6_step1_behaviour (cr : Bool) (s : ScreenState) :
    (fetchStep1 cr s).error = "" ∧
    (fetchStep1 cr s).loading = (if cr then s.loading else true) ∧
    (fetchStep1 cr s).posts = s.posts ∧
    (onRefreshStep1 s).error = "" ∧
    (onRefreshStep1 s).refreshing = true ∧
    (onRefreshStep1 s).loading = (if s.refreshing then s.loading else true) := by
  refine ⟨?_, ?_, ?_, ?_, ?_, ?_⟩ <;>
    cases cr <;> cases hs : s.refreshing <;>
    simp [fetchStep1, onRefreshStep1, hs]

/-- Two overlapping `fetchPosts` runs: run 1 starts, run 2 starts before run 1
resolves, run 2 resolves first and run 1 resolves last.  Each run's closure
captures the `refreshing` and `search` of the render it was created in; both
probes answer connected.  The state updates are applied in resolution
order — the code has no sequence-number tagging. -/
def overlappingFetches (q1 q2 : String) (r1 r2 : RemoteResult)
    (s0 : ScreenState) : ScreenState :=
  let s1 := fetchStep1 s0.refreshing s0
  let s2 := fetchStep1 s1.refreshing s1
  let s3 := (fetchComplete q2 true r2 s2).state
  (fetchComplete q1 true r1 s3).state

/-- C2 counterexample: run 1 fetches `[alphaPost]`, run 2 (started later)
fetches `[betaPost]`, and run 1 resolves after run 2.  The claim says the
final state must reflect run 2's outcome (`[betaPost]`); the code applies
results in resolution order, so the final collection is run 1's
`[alphaPost]`. -/
theorem c2_counterexample :
    (overlappingFetches "" "" (.success [alphaPost]) (.success [betaPost])
        initialState).posts = [alphaPost] ∧
    (overlappingFetches "" "" (.success [alphaPost]) (.success [betaPost])
        initialState).posts ≠ [betaPost] := by
  constructor <;> decide

/-- C2 amended: the code carries no sequence numbers and never discards a
completed result; state updates land in resolution order, so whichever fetch
resolves last wins.  With two overlapping successful fetches in which run 1
resolves after run 2, the final state reflects run 1's data — filtered with
run 1's captured query — and run 2's result is overwritten. -/
theorem c2_last_resolver_wins (q1 q2 : String) (d1 d2 : List Post)
    (s0 : ScreenState) :
    (overlappingFetches q1 q2 (.success d1) (.success d2) s0).posts = d1 ∧
    (overlappingFetches q1 q2 (.success d1) (.success d2) s0).filteredPosts
      = filterPosts d1 q1 ∧
    (overlappingFetches q1 q2 (.success d1) (.success d2) s0).error = "" := by
  simp [overlappingFetches, fetchComplete]

/-- C10: after any completed `fetchPosts` run the `error` field holds one of
the four strings of its union type, and it is `""` exactly on success,
`"offline"` exactly when the probe said disconnected, `"server"` exactly on a
non-success status, and `"network"` exactly on a thrown transport or decode
failure; the synchronous head always resets it to `""`. -/
theorem c10_error_classification (cr : Bool) (cs : String) (net : Bool)
    (r : RemoteResult) (s : ScreenState) :
    ((fetchPosts cr cs net r s).state.error = "" ∨
     (fetchPosts cr cs net r s).state.error = "offline" ∨
     (fetchPosts cr cs net r s).state.error = "server" ∨
     (fetchPosts cr cs net r s).state.error = "network") ∧
    ((fetchPosts cr cs net r s).state.error = "" ↔
      net = true ∧ ∃ d, r = .success d) ∧
    ((fetchPosts cr cs net r s).state.error = "offline" ↔ net = false) ∧
    ((fetchPosts cr cs net r s).state.error = "server" ↔
      net = true ∧ ∃ c, r = .httpError c) ∧
    ((fetchPosts cr cs net r s).state.error = "network" ↔
      net = true ∧ r = .networkError) ∧
    (fetchStep1 cr s).error = "" := by
  cases net <;> cases r <;> cases cr <;>
    simp [fetchPosts, fetchComplete, fetchStep1]

/-- An event the debounce effect reacts to: its dependency list is
`[search, posts]`, so it re-runs on every query mutation and on every
replacement of the collection.  Times are milliseconds. -/
inductive DebEvent where
  | setQuery (t : Nat) (q : String)
  | setCollection (t : Nat) (ps : List Post)
deriving DecidableEq

/-- State of the debounce machine: the live `search` and `posts`, the
`filteredPosts` it maintains, the pending timer (fire time plus the `search`
and `posts` the timeout callback closed over), the chronological list of
`AsyncStorage.setItem("searchText", ·)` writes as (time, value) pairs, and a
count of `setFilteredPosts` recomputations performed by fired timers. -/
structure DebState where
  search : String
  posts : List Post
  filteredPosts : List Post
  pending : Option (Nat × String × List Post)
  writes : List (Nat × String)
  recomputes : Nat
deriving DecidableEq

/-- The debounce machine at mount: initial render values, no timer yet. -/
def debInit : DebState :=
  { search := "", posts := [], filteredPosts := [], pending := none,
    writes := [], recomputes := 0 }

/-- Fire the pending timeout if its time has come by time `t`: the callback
persists the captured query and recomputes the filtered view from the
captured collection. -/
def fireIfDue (t : Nat) (s : DebState) : DebState :=
  match s.pending with
  | none => s
  | some (ft, q, ps) =>
      if ft ≤ t then
        { s with writes := s.writes ++ [(ft, q)],
                 filteredPosts := filterPosts ps q,
                 recomputes := s.recomputes + 1,
                 pending := none }
      else s

/-- One run of the debounce effect at time `t`: any timer that was due has
fired; the effect then does `clearTimeout` on whatever is still pending and
schedules a fresh 300 ms timeout capturing the new `search` and `posts`. -/
def debStep (s : DebState) (e : DebEvent) : DebState :=
  match e with
  | .setQuery t q =>
      let s1 := fireIfDue t s
      { s1 with search := q, pending := some (t + 300, q, s1.posts) }
  | .setCollection t ps =>
      let s1 := fireIfDue t s
      { s1 with posts := ps, pending := some (t + 300, s1.search, ps) }

/-- Run the debounce machine over a chronological event list. -/
def debRun (s : DebState) (es : List DebEvent) : DebState :=
  es.foldl debStep s

/-- Let time run out: the last pending timeout, if any, fires. -/
def debFinish (s : DebState) : DebState :=
  match s.pending with
  | none => s
  | some (ft, q, ps) =>
      { s with writes := s.writes ++ [(ft, q)],
               filteredPosts := filterPosts ps q,
               recomputes := s.recomputes + 1,
               pending := none }

/-- The three-mutation burst of the claim: queries at t = 0, 100, 150 ms. -/
def burstEvents (q1 q2 q3 : String) : List DebEvent :=
  [.setQuery 0 q1, .setQuery 100 q2, .setQuery 150 q3]

/-- C7: from any machine state with no timer pending, query mutations at
t = 0, 100 and 150 ms produce no write and no recompute during the burst
(each mutation cancels the pending timer and restarts it — trailing edge,
never leading edge), leave the timer set for t = 450 ms capturing only the
last value, and once quiet produce exactly one write, of the last value at
t = 450 ms, and exactly one recompute of the filtered view from the
then-current collection. -/
theorem c7_debounce_coalescing (s0 : DebState) (q1 q2 q3 : String)
    (h : s0.pending = none) :
    (debRun s0 (burstEvents q1 q2 q3)).writes = s0.writes ∧
    (debRun s0 (burstEvents q1 q2 q3)).recomputes = s0.recomputes ∧
    (debRun s0 (burstEvents q1 q2 q3)).pending = some (450, q3, s0.posts) ∧
    (debFinish (debRun s0 (burstEvents q1 q2 q3))).writes
      = s0.writes ++ [(450, q3)] ∧
    (debFinish (debRun s0 (burstEvents q1 q2 q3))).recomputes
      = s0.recomputes + 1 ∧
    (debFinish (debRun s0 (burstEvents q1 q2 q3))).filteredPosts
      = filterPosts s0.posts q3 ∧
    (debFinish (debRun s0 (burstEvents q1 q2 q3))).search = q3 := by
  simp [burstEvents, debRun, debStep, fireIfDue, debFinish, h]

/-- C7 witness: the burst `"a"`, `"ab"`, `"abc"` from the mount state. -/
theorem c7_debounce_coalescing_witness :
    (debRun debInit (burstEvents "a" "ab" "abc")).writes = debInit.writes ∧
    (debRun debInit (burstEvents "a" "ab" "abc")).recomputes = debInit.recomputes ∧
    (debRun debInit (burstEvents "a" "ab" "abc")).pending
      = some (450, "abc", debInit.posts) ∧
    (debFinish (debRun debInit (burstEvents "a" "ab" "abc"))).writes
      = debInit.writes ++ [(450, "abc")] ∧
    (debFinish (debRun debInit (burstEvents "a" "ab" "abc"))).recomputes
      = debInit.recomputes + 1 ∧
    (debFinish (debRun debInit (burstEvents "a" "ab" "abc"))).filteredPosts
      = filterPosts debInit.posts "abc" ∧
    (debFinish (debRun debInit (burstEvents "a" "ab" "abc"))).search = "abc" :=
  c7_debounce_coalescing debInit "a" "ab" "abc" rfl

/-- C9: the debounce effect's dependency list `[search, posts]` makes every
collection replacement restart the 300 ms timer as well: from a quiet state,
a successful fetch landing new posts at time `t` schedules a timer for
`t + 300` capturing the unchanged query and the new collection, and its
firing performs one persistence write of that query and one recompute of the
filtered view from the new collection — an extra persisted write even though
the user typed nothing. -/
theorem c9_posts_replacement_triggers_debounce (s0 : DebState) (t : Nat)
    (data : List Post) (h : s0.pending = none) :
    (debStep s0 (.setCollection t data)).pending
      = some (t + 300, s0.search, data) ∧
    (debStep s0 (.setCollection t data)).writes = s0.writes ∧
    (debStep s0 (.setCollection t data)).search = s0.search ∧
    (debFinish (debStep s0 (.setCollection t data))).writes
      = s0.writes ++ [(t + 300, s0.search)] ∧
    (debFinish (debStep s0 (.setCollection t data))).filteredPosts
      = filterPosts data s0.search ∧
    (debFinish (debStep s0 (.setCollection t data))).recomputes
      = s0.recomputes + 1 := by
  simp [debStep, fireIfDue, debFinish, h]

/-- C9 witness: a successful fetch of `[alphaPost]` at t = 1000 ms from the
mount state. -/
theorem c9_posts_replacement_triggers_debounce_witness :
    (debStep debInit (.setCollection 1000 [alphaPost])).pending
      = some (1300, debInit.search, [alphaPost]) ∧
    (debStep debInit (.setCollection 1000 [alphaPost])).writes = debInit.writes ∧
    (debStep debInit (.setCollection 1000 [alphaPost])).search = debInit.search ∧
    (debFinish (debStep debInit (.setCollection 1000 [alphaPost]))).writes
      = debInit.writes ++ [(1300, debInit.search)] ∧
    (debFinish (debStep debInit (.setCollection 1000 [alphaPost]))).filteredPosts
      = filterPosts [alphaPost] debInit.search ∧
    (debFinish (debStep debInit (.setCollection 1000 [alphaPost]))).recomputes
      = debInit.recomputes + 1 :=
  c9_posts_replacement_triggers_debounce debInit 1000 [alphaPost] rfl

/-- The async key-value store (`AsyncStorage`): `setItem` replaces the value
under the key or appends a fresh pair. -/
def storeSet (k v : String) : List (String × String) → List (String × String)
  | [] => [(k, v)]
  | (k1, v1) :: rest =>
      if k1 = k then (k, v) :: rest else (k1, v1) :: storeSet k v rest

/-- The async key-value store: `getItem` returns the stored value or `null`
(`none`) when the key is absent. -/
def storeGet (k : String) : List (String × String) → Option String
  | [] => none
  | (k1, v1) :: rest => if k1 = k then some v1 else storeGet k rest

/-- Reading a key just written yields the written value. -/
theorem storeGet_storeSet (k v : String) (st : List (String × String)) :
    storeGet k (storeSet k v st) = some v := by
  induction st with
  | nil => simp [storeSet, storeGet]
  | cons hd tl ih =>
      obtain ⟨k1, v1⟩ := hd
      by_cases hk : k1 = k <;> simp [storeSet, storeGet, hk, ih]

/-- The mount effect `loadSaved`: read `"searchText"` once and seed the query
with the stored value when it is truthy (`if (saved) setSearch(saved)`); a
`null` read or an empty stored string leaves the initial `""`. -/
def loadSaved (st : List (String × String)) : String :=
  match storeGet "searchText" st with
  | none => ""
  | some v => if v = "" then "" else v

/-- The debounce-relevant events of a mount against store `st` in which the
fetch succeeds with `data`: the effect's own first run at t = 0 with the
initial render values, the single seeding of the query from the store at
t = 10, and the arrival of the fetched collection at t = 50. -/
def mountTrace (st : List (String × String)) (data : List Post) : List DebEvent :=
  [.setQuery 0 "", .setQuery 10 (loadSaved st), .setCollection 50 data]

/-- Recognises the seeding event of a mount trace (the query mutation issued
by `loadSaved` at t = 10). -/
def isSeedEvent : DebEvent → Bool
  | .setQuery t _ => t == 10
  | .setCollection _ _ => false

/-- The debounce machine state once a mount has settled: the trace has run
and the last timer has fired. -/
def mountRun (st : List (String × String)) (data : List Post) : DebState :=
  debFinish (debRun debInit (mountTrace st data))

/-- C8: for any nonempty query `q` persisted to the store, reading the key
after a simulated restart yields `q` again; the mount seeds the query from
it (and the trace seeds exactly once); and once the mount settles the freshly
fetched collection is filtered by the restored query, with exactly one
persistence write (of `q` itself) performed by the mount. -/
theorem c8_restart_persistence (st : List (String × String)) (q : String)
    (data : List Post) (h : q ≠ "") :
    storeGet "searchText" (storeSet "searchText" q st) = some q ∧
    loadSaved (storeSet "searchText" q st) = q ∧
    ((mountTrace (storeSet "searchText" q st) data).filter isSeedEvent).length = 1 ∧
    (mountRun (storeSet "searchText" q st) data).search = q ∧
    (mountRun (storeSet "searchText" q st) data).posts = data ∧
    (mountRun (storeSet "searchText" q st) data).filteredPosts = filterPosts data q ∧
    (mountRun (storeSet "searchText" q st) data).writes = [(350, q)] := by
  have hget := storeGet_storeSet "searchText" q st
  have hload : loadSaved (storeSet "searchText" q st) = q := by
    simp [loadSaved, hget, h]
  refine ⟨hget, hload, ?_, ?_, ?_, ?_, ?_⟩ <;>
    simp [mountRun, mountTrace, isSeedEvent, debRun, debStep, fireIfDue,
      debFinish, debInit, hload]

/-- C8 witness: the query `"alpha"` against an empty store, with the fetch
returning `[alphaPost]`. -/
theorem c8_restart_persistence_witness :
    storeGet "searchText" (storeSet "searchText" "alpha" []) = some "alpha" ∧
    loadSaved (storeSet "searchText" "alpha" []) = "alpha" ∧
    ((mountTrace (storeSet "searchText" "alpha" []) [alphaPost]).filter
      isSeedEvent).length = 1 ∧
    (mountRun (storeSet "searchText" "alpha" []) [alphaPost]).search = "alpha" ∧
    (mountRun (storeSet "searchText" "alpha" []) [alphaPost]).posts = [alphaPost] ∧
    (mountRun (storeSet "searchText" "alpha" []) [alphaPost]).filteredPosts
      = filterPosts [alphaPost] "alpha" ∧
    (mountRun (storeSet "searchText" "alpha" []) [alphaPost]).writes
      = [(350, "alpha")] :=
  c8_restart_persistence [] "alpha" [alphaPost] (by decide)

end PostsScreen
